import Mathlib

/-!
Verification of the WebAutomationTool selector / template / execution core.

Shallow embedding of the Python sources under `src/src/core/`:
`element_picker.py` (and its `_clean` / `_toggle` variants),
`xpath_failure_analyzer.py`, `template_processing.py`,
`template_evaluator.py`, `action_handlers.py`, `task_execution_thread.py`
and `workflow_executor.py`.

Strings are modelled as Lean `String` (lists of characters); Python regular
expressions are modelled by direct deterministic scanners over `List Char`
that implement the exact matching semantics of the concrete patterns used in
the source (each of those patterns is backtracking-free or has a directly
computable backtracking behaviour, which the scanners reproduce).  `\w` and
the letter classes are modelled over ASCII, which covers every value the
claims are about.
-/

namespace WebAuto

/-! ### Character classes -/

def squoteC : Char := Char.ofNat 39

def dquoteC : Char := Char.ofNat 34

def lbraceC : Char := Char.ofNat 123

def rbraceC : Char := Char.ofNat 125

def isLowAZ (c : Char) : Bool := 'a' ≤ c && c ≤ 'z'

def isUpAZ (c : Char) : Bool := 'A' ≤ c && c ≤ 'Z'

def isDigC (c : Char) : Bool := '0' ≤ c && c ≤ '9'

def isLetterAZ (c : Char) : Bool := isLowAZ c || isUpAZ c

/-- Python `\w` (ASCII part): letters, digits and underscore. -/
def isWordC (c : Char) : Bool := isLetterAZ c || isDigC c || c = '_'

/-- Python `\s`: the six ASCII whitespace characters. -/
def isPySpace (c : Char) : Bool :=
  c = ' ' || c = Char.ofNat 9 || c = Char.ofNat 10 || c = Char.ofNat 13 ||
  c = Char.ofNat 11 || c = Char.ofNat 12

def isQuoteC (c : Char) : Bool := c = squoteC || c = dquoteC

/-! ### The semantic-value patterns of `ElementPicker._is_random`

The five regexes of `element_picker.py` lines 315-321:
  `^[a-z]+$`, `^[a-z]+-[a-z]+(-[a-z]+)*$`, `^[a-z]+[A-Z][a-z]*([A-Z][a-z]*)*$`,
  `^[a-z]+_[a-z]+(_[a-z]+)*$`, `^[A-Z][a-z]+([A-Z][a-z]*)*$`.
Each is implemented as a whole-string acceptor on `List Char`.
For the dash/underscore patterns we use the separator-split normal form:
the regex accepts exactly the strings that split on the separator into at
least two chunks, each a nonempty all-lowercase word.  For the camel/Pascal
patterns note `[A-Z][a-z]*([A-Z][a-z]*)*` accepts exactly the nonempty
`[A-Za-z]` strings that start with an uppercase letter. -/

def splitOnC (sep : Char) : List Char → List (List Char)
  | [] => [[]]
  | c :: t =>
    let r := splitOnC sep t
    if c = sep then [] :: r
    else
      match r with
      | h :: rs => (c :: h) :: rs
      | [] => [[c]]

/-- `^[a-z]+$` -/
def patLower (l : List Char) : Bool := !l.isEmpty && l.all isLowAZ

/-- `^[a-z]+-[a-z]+(-[a-z]+)*$` : at least two dash-separated nonempty
lowercase chunks. -/
def patKebab (l : List Char) : Bool :=
  let parts := splitOnC '-' l
  decide (2 ≤ parts.length) && parts.all fun p => !p.isEmpty && p.all isLowAZ

/-- `^[a-z]+_[a-z]+(_[a-z]+)*$` -/
def patSnake (l : List Char) : Bool :=
  let parts := splitOnC '_' l
  decide (2 ≤ parts.length) && parts.all fun p => !p.isEmpty && p.all isLowAZ

def camelAfterLow : List Char → Bool
  | [] => false
  | c :: t => if isLowAZ c then camelAfterLow t else isUpAZ c && t.all isLetterAZ

/-- `^[a-z]+[A-Z][a-z]*([A-Z][a-z]*)*$` : a nonempty lowercase run, then an
uppercase letter, then any letters. -/
def patCamel : List Char → Bool
  | [] => false
  | c :: t => isLowAZ c && camelAfterLow t

def pascalLows : List Char → Bool
  | [] => true
  | c :: t => if isLowAZ c then pascalLows t else isUpAZ c && t.all isLetterAZ

def pascalAfterUp : List Char → Bool
  | [] => false
  | c :: t => isLowAZ c && pascalLows t

/-- `^[A-Z][a-z]+([A-Z][a-z]*)*$` -/
def patPascal : List Char → Bool
  | [] => false
  | c :: t => isUpAZ c && pascalAfterUp t

/-- Python `re.match(pattern + end-anchor, value)`: with no MULTILINE flag the
`$` anchor also matches just before a single trailing newline. -/
def dollarMatch (p : List Char → Bool) (l : List Char) : Bool :=
  p l ||
    (match l.getLast? with
     | some c => c = Char.ofNat 10 && p l.dropLast
     | none => false)

/-- `ElementPicker._is_random` (element_picker.py lines 309-323, identical in
element_picker_clean.py and element_picker_toggle.py). -/
def is_random (v : String) : Bool :=
  if v = "" || v.length < 2 || v.length > 30 then true
  else
    !(dollarMatch patLower v.data || dollarMatch patKebab v.data ||
      dollarMatch patCamel v.data || dollarMatch patSnake v.data ||
      dollarMatch patPascal v.data)

/-- The spec's `is_semantic` is the negation of the code's `_is_random`. -/
def is_semantic (v : String) : Bool := !is_random v

/-! ### Blacklist, clean attributes, and the candidate builder -/

/-- A DOM node snapshot: tag, attributes (insertion-ordered association list,
modelling a Python dict) and trimmed text content. -/
structure ElementInfo where
  tagName : String
  attributes : List (String × String)
  textContent : String
deriving DecidableEq

/-- One blacklist entry / one decomposed selector component:
`{"element": ..., "attribute": ..., "value": ...}` (the `attribute` key is
called `attr` here because `attribute` is a Lean keyword). -/
structure BlacklistEntry where
  element : String
  attr : String
  value : String
deriving DecidableEq

/-- `ElementPicker._is_blacklisted`. -/
def is_blacklisted (bl : List BlacklistEntry) (tag attr val : String) : Bool :=
  bl.any fun item => item.element = tag && item.attr = attr && item.value = val

/-- Dict lookup: `attrs[k]` / `k in attrs` on an insertion-ordered dict. -/
def lookupAttr (attrs : List (String × String)) (k : String) : Option String :=
  (attrs.find? fun p => p.1 = k).map Prod.snd

/-- `ElementPicker._get_clean_attributes`: attributes that are neither
blacklisted nor classified random. -/
def get_clean_attributes (bl : List BlacklistEntry) (info : ElementInfo) :
    List (String × String) :=
  info.attributes.filter fun p =>
    !is_blacklisted bl info.tagName p.1 p.2 && !is_random p.2

def test_attr_names : List String :=
  ["data-testid", "data-cy", "data-test", "data-automation", "data-qa"]

def textTags : List String := ["button", "a", "span", "label"]

/-- The candidate list built by `_build_unique_xpath` (element_picker.py lines
241-269), in priority order.  Note that priority 1 emits the literal string
`//[@id="..."]` — with no node test before the predicate — exactly as the
f-string on line 246 does. -/
def buildCandidates (bl : List BlacklistEntry) (t : ElementInfo) : List String :=
  let clean := get_clean_attributes bl t
  (match lookupAttr clean "id" with
   | some v => ["//[@id=\"" ++ v ++ "\"]"]
   | none => []) ++
  (match lookupAttr clean "name" with
   | some v => ["//" ++ t.tagName ++ "[@name=\"" ++ v ++ "\"]"]
   | none => []) ++
  (test_attr_names.filterMap fun a =>
    (lookupAttr clean a).map fun v =>
      "//" ++ t.tagName ++ "[@" ++ a ++ "=\"" ++ v ++ "\"]") ++
  (if t.textContent ≠ "" && t.textContent.length < 50 &&
      textTags.contains t.tagName && !is_random t.textContent then
    ["//" ++ t.tagName ++ "[text()=\"" ++ t.textContent ++ "\"]"]
   else []) ++
  (match lookupAttr t.attributes "type" with
   | some v => ["//" ++ t.tagName ++ "[@type=\"" ++ v ++ "\"]"]
   | none => []) ++
  ["//" ++ t.tagName]

/-- `candidates[0] if candidates else f'//{tag_name}'` (line 273). -/
def baseSelector (bl : List BlacklistEntry) (t : ElementInfo) : String :=
  (buildCandidates bl t).headD ("//" ++ t.tagName)

def landmarkTags : List String :=
  ["form", "nav", "main", "section", "article", "header", "footer"]

/-- Python `str.split()` with no separator: split on whitespace runs,
dropping empty chunks.  `acc` holds the current word, reversed. -/
def splitWsAux (acc : List Char) : List Char → List (List Char)
  | [] => if acc.isEmpty then [] else [acc.reverse]
  | c :: t =>
    if isPySpace c then
      if acc.isEmpty then splitWsAux [] t else acc.reverse :: splitWsAux [] t
    else splitWsAux (c :: acc) t

def splitWs (s : String) : List String := (splitWsAux [] s.data).map String.mk

/-- `ElementPicker._get_clean_ancestor_selector` (lines 338-361). -/
def get_clean_ancestor_selector (bl : List BlacklistEntry) (a : ElementInfo) :
    Option String :=
  let clean := get_clean_attributes bl a
  if landmarkTags.contains a.tagName then some ("//" ++ a.tagName)
  else
    match lookupAttr clean "id" with
    | some v => some ("//[@id=\"" ++ v ++ "\"]")
    | none =>
      match lookupAttr clean "class" with
      | some cv =>
        ((splitWs cv).find? fun cls =>
            !is_blacklisted bl a.tagName "class" cls && !is_random cls).map
          fun cls => "//" ++ a.tagName ++ "[contains(@class, \"" ++ cls ++ "\")]"
      | none => none

/-- `ElementPicker._add_ancestor_context` (lines 325-336). -/
def add_ancestor_context (bl : List BlacklistEntry) (base : String) :
    List ElementInfo → String
  | [] => base
  | a :: rest =>
    match get_clean_ancestor_selector bl a with
    | some ctx => ctx ++ base
    | none => add_ancestor_context bl base rest

/-- `ElementPicker._build_unique_xpath` (element_picker.py lines 232-279,
identical logic in element_picker_clean.py lines 199-240). -/
def build_unique_xpath (bl : List BlacklistEntry) (t : ElementInfo)
    (ancestors : List ElementInfo) : String :=
  let clean := get_clean_attributes bl t
  let candidates := buildCandidates bl t
  let base := candidates.headD ("//" ++ t.tagName)
  if candidates.length > 1 || (lookupAttr clean "id").isNone then
    add_ancestor_context bl base ancestors
  else base

/-! ### Template expression machinery

`TEMPLATE_PATTERN = \{\{([^}]+)\}\}` (template_evaluator.py line 12, and the
same pattern in template_processing.py line 40).  The scanner mirrors
`re.sub`/`re.finditer`: try a match at each position, left to right; on a
match continue after it, otherwise advance one character.  `splitSpansF`
carries fuel equal to the initial length, which strictly dominates the
recursion depth, so the fuel never runs out for `splitSpans`. -/

def neRB (c : Char) : Bool := c ≠ rbraceC

def matchSpan : List Char → Option (List Char × List Char)
  | c1 :: c2 :: rest =>
    if c1 = lbraceC && c2 = lbraceC then
      let inner := rest.takeWhile neRB
      let after := rest.dropWhile neRB
      if inner.isEmpty then none
      else
        match after with
        | d1 :: d2 :: rest2 =>
          if d1 = rbraceC && d2 = rbraceC then some (inner, rest2) else none
        | _ => none
    else none
  | _ => none

def splitSpansF (m : List Char → Option (List Char × List Char)) :
    Nat → List Char → List (Char ⊕ List Char)
  | 0, _ => []
  | _ + 1, [] => []
  | fuel + 1, c :: cs =>
    match m (c :: cs) with
    | some (inner, rest) => Sum.inr inner :: splitSpansF m fuel rest
    | none => Sum.inl c :: splitSpansF m fuel cs

def splitSpans (l : List Char) : List (Char ⊕ List Char) :=
  splitSpansF matchSpan l.length l

/-- Python `str.strip()` (over the ASCII whitespace the claims need). -/
def stripChars (l : List Char) : List Char :=
  (((l.dropWhile isPySpace).reverse).dropWhile isPySpace).reverse

def dropSpaces (l : List Char) : List Char := l.dropWhile isPySpace

def takeNonQuote (l : List Char) : List Char := l.takeWhile fun c => !isQuoteC c

def dropNonQuote (l : List Char) : List Char := l.dropWhile fun c => !isQuoteC c

/-- Does the remainder match `\s*\)` (as a prefix)?  `\s*` is effectively
deterministic here because `)` is not whitespace. -/
def afterParamCloses (l : List Char) : Bool :=
  match dropSpaces l with
  | c :: _ => c = ')'
  | [] => false

/-- Backtracking of `([^'"]+)` followed by `\s*\)` in the unquoted branch of
`COL_FUNCTION_PATTERN`: the group first consumes the maximal non-quote run,
then gives characters back from the right until the remainder matches
`\s*\)`.  `revPre` is the reversed current candidate for the group. -/
def btParam : List Char → List Char → Option (List Char)
  | [], _ => none
  | c :: revRest, suf =>
    if afterParamCloses suf then some ((c :: revRest).reverse)
    else btParam revRest (c :: suf)

/-- `TemplateEvaluator.COL_FUNCTION_PATTERN.match`:
`col\s*\(\s*(['\"]?)([^'\"]+)\1\s*\)` anchored at the start (a prefix match:
trailing junk is ignored).  Returns (group 1 nonempty?, group 2).  In the
quoted branch both the group and the backreference are forced, so matching
is deterministic; if the first parameter character is a quote and the quoted
branch fails, the empty-group-1 alternative also fails because `[^'\"]+`
cannot start at a quote. -/
def parseColTail (l : List Char) : Option (Bool × List Char) :=
  match dropSpaces l with
  | c :: rest =>
    if c = '(' then
      match dropSpaces rest with
      | q :: s2 =>
        if isQuoteC q then
          let param := takeNonQuote s2
          (if param.isEmpty then none
           else
             match dropNonQuote s2 with
             | q2 :: s3 =>
               if q2 = q && afterParamCloses s3 then some (true, param) else none
             | [] => none)
        else
          (btParam (takeNonQuote (q :: s2)).reverse (dropNonQuote (q :: s2))).map
            fun p => (false, p)
      | [] => none
    else none
  | [] => none

def parseColFun : List Char → Option (Bool × List Char)
  | 'c' :: 'o' :: 'l' :: rest => parseColTail rest
  | _ => none

/-- The digits of a nonempty all-digit run, as a number. -/
def digitsVal (l : List Char) : Nat :=
  l.foldl (fun acc c => acc * 10 + (c.toNat - 48)) 0

/-- Python `int(str)`: optional surrounding whitespace, optional sign, digits
(PEP-515 underscores are not modelled; no claim involves them). -/
def pyInt (l : List Char) : Option Int :=
  match stripChars l with
  | '-' :: ds => if ds.isEmpty || !ds.all isDigC then none else some (-(digitsVal ds : Int))
  | '+' :: ds => if ds.isEmpty || !ds.all isDigC then none else some (digitsVal ds : Int)
  | ds => if ds.isEmpty || !ds.all isDigC then none else some (digitsVal ds : Int)

/-- The tabular data behind a pandas DataFrame: named, ordered columns and
rows of cells (cells modelled as strings; `str()` of a cell is the
identity). -/
structure DataFrame where
  columns : List String
  rows : List (List String)

def dfCellByName (df : DataFrame) (ri : Nat) (name : String) : String :=
  (df.rows.getD ri []).getD (df.columns.indexOf name) ""

def dfCellByIdx (df : DataFrame) (ri : Nat) (j : Nat) : String :=
  (df.rows.getD ri []).getD j ""

/-- `TemplateEvaluator._evaluate_expression` (template_evaluator.py lines
47-72).  The out-of-range `ValueError` raised inside the `try` block is
caught by its own `except ValueError` clause and re-raised as
`Invalid column index: <param>`, which is why that message also covers the
out-of-range case here. -/
def evaluate_expression (df : DataFrame) (row_index : Nat) (expr : List Char) :
    Except String String :=
  match parseColFun (stripChars expr) with
  | some (true, param) =>
    let column_name := String.mk param
    if df.columns.contains column_name then .ok (dfCellByName df row_index column_name)
    else .error ("Column \x27" ++ column_name ++ "\x27 not found")
  | some (false, param) =>
    (match pyInt param with
     | some i =>
       if 0 ≤ i && i < (df.columns.length : Int) then .ok (dfCellByIdx df row_index i.toNat)
       else .error ("Invalid column index: " ++ String.mk param)
     | none => .error ("Invalid column index: " ++ String.mk param))
  | none => .error ("Unsupported expression: " ++ String.mk expr)

def renderTokensE (f : List Char → Except String (List Char)) :
    List (Char ⊕ List Char) → Except String (List Char)
  | [] => .ok []
  | Sum.inl c :: rest =>
    (match renderTokensE f rest with
     | .ok tail => .ok (c :: tail)
     | .error e => .error e)
  | Sum.inr inner :: rest =>
    match f inner with
    | .ok r =>
      (match renderTokensE f rest with
       | .ok tail => .ok (r ++ tail)
       | .error e => .error e)
    | .error e => .error e

/-- `TemplateEvaluator.is_template` for string values (non-strings are out of
scope for the claims). -/
def is_template (v : String) : Bool := (splitSpans v.data).any Sum.isRight

/-- `TemplateEvaluator.evaluate_template` (template_evaluator.py lines 24-45)
for a string `value`.  The outer `try` around `TEMPLATE_PATTERN.sub` is the
final `match`: its default branch is unreachable in practice because the
per-span replacement already substitutes the default, but it is kept to
mirror the source. -/
def evaluate_template (df : DataFrame) (row_index : Nat) (default_value : Option String)
    (value : String) : Except String String :=
  if !is_template value then .ok value
  else
    let repl := fun (inner : List Char) =>
      let expression := stripChars inner
      match evaluate_expression df row_index expression with
      | .ok r => Except.ok r.data
      | .error e =>
        match default_value with
        | some d => Except.ok d.data
        | none =>
          Except.error ("Template evaluation failed: " ++ String.mk expression ++ " - " ++ e)
    match renderTokensE repl (splitSpans value.data) with
    | .ok l => .ok (String.mk l)
    | .error e =>
      match default_value with
      | some d => .ok d
      | none => .error e

/-! ### `template_processing.resolve_expression` -/

/-- `col\s*\(\s*['\"]([^'\"]+)['\"]\s*\)` (template_processing.py line 27):
like the evaluator's quoted branch but with an independent closing quote
(any quote character closes, not a backreference). -/
def parseColNameTP : List Char → Option (List Char)
  | 'c' :: 'o' :: 'l' :: rest =>
    (match dropSpaces rest with
     | c :: rest2 =>
       if c = '(' then
         match dropSpaces rest2 with
         | q :: s2 =>
           if isQuoteC q then
             let param := takeNonQuote s2
             (if param.isEmpty then none
              else
                match dropNonQuote s2 with
                | q2 :: s3 =>
                  if isQuoteC q2 && afterParamCloses s3 then some param else none
                | [] => none)
           else none
         | [] => none
       else none
     | [] => none)
  | _ => none

/-- `col\s*\(\s*(\d+)\s*\)` (template_processing.py line 32): the digit run
is maximal and cannot backtrack usefully, since a shortened run would leave
a digit where `\s*\)` must match. -/
def parseColIdxTP : List Char → Option (List Char)
  | 'c' :: 'o' :: 'l' :: rest =>
    (match dropSpaces rest with
     | c :: rest2 =>
       if c = '(' then
         let s := dropSpaces rest2
         let ds := s.takeWhile isDigC
         if ds.isEmpty then none
         else if afterParamCloses (s.dropWhile isDigC) then some ds else none
       else none
     | [] => none)
  | _ => none

/-- The `replace_match` closure of `resolve_expression` (template_processing.py
lines 23-38): a missing column silently becomes `''`, an out-of-range index
silently becomes `''`, and anything unparseable becomes the literal
`{{UNKNOWN: <expr>}}` marker. -/
def resolveRepl (row_data : List (String × String)) (inner : List Char) : List Char :=
  let func_call := stripChars inner
  match parseColNameTP func_call with
  | some name => ((lookupAttr row_data (String.mk name)).getD "").data
  | none =>
    match parseColIdxTP func_call with
    | some ds =>
      let idx := digitsVal ds
      let keys := row_data.map Prod.fst
      if idx < keys.length then ((lookupAttr row_data (keys.getD idx "")).getD "").data
      else []
    | none =>
      ("\x7b\x7bUNKNOWN: " ++ String.mk func_call ++ "\x7d\x7d").data

def renderTokensP (f : List Char → List Char) : List (Char ⊕ List Char) → List Char
  | [] => []
  | Sum.inl c :: rest => c :: renderTokensP f rest
  | Sum.inr inner :: rest => f inner ++ renderTokensP f rest

def hasDoubleLB : List Char → Bool
  | a :: b :: t => (a = lbraceC && b = lbraceC) || hasDoubleLB (b :: t)
  | _ => false

/-- `resolve_expression` (template_processing.py lines 9-40). -/
def resolve_expression (expression : String) (row_data : List (String × String)) :
    String :=
  if expression = "" || !hasDoubleLB expression.data then expression
  else String.mk (renderTokensP (resolveRepl row_data) (splitSpans expression.data))

/-! ### `TemplateEvaluator.extract_required_columns` -/

/-- One `{{...}}` span's contribution in `_extract_columns_from_template`
(template_evaluator.py lines 98-115): strip, prefix-match the col pattern,
and keep the parameter only when the quote group is nonempty (positional
indices are not named). -/
def colNameOfSpan (inner : List Char) : Option String :=
  match parseColFun (stripChars inner) with
  | some (true, param) => some (String.mk param)
  | _ => none

def namesInTemplate (v : String) : Finset String :=
  ((splitSpans v.data).filterMap fun tok =>
    match tok with
    | Sum.inr inner => colNameOfSpan inner
    | Sum.inl _ => none).toFinset

/-- An action's templatable fields (only these three are scanned). -/
structure WAction where
  value : Option String
  url : Option String
  selector : Option String

/-- A task configuration's four action sections (a missing key in the Python
dict is `none`). -/
structure TaskConfig where
  initialization : Option (List WAction)
  pre_loop_actions : Option (List WAction)
  loop_actions : Option (List WAction)
  post_loop_actions : Option (List WAction)

def fieldCols : Option String → Finset String
  | some v => if is_template v then namesInTemplate v else ∅
  | none => ∅

def actionCols (a : WAction) : Finset String :=
  fieldCols a.value ∪ fieldCols a.url ∪ fieldCols a.selector

def sectionCols : Option (List WAction) → Finset String
  | some acts => acts.foldr (fun a acc => actionCols a ∪ acc) ∅
  | none => ∅

/-- `TemplateEvaluator.extract_required_columns` (template_evaluator.py lines
74-96); the imperative `set.update` accumulation is a union. -/
def extract_required_columns (cfg : TaskConfig) : Finset String :=
  sectionCols cfg.initialization ∪ sectionCols cfg.pre_loop_actions ∪
    sectionCols cfg.loop_actions ∪ sectionCols cfg.post_loop_actions

/-- The spec's wording of the extraction, for comparison with the source's
`extract_required_columns`: "`extract_referenced_columns(workflow)`
statically scans every templated field in every action of a workflow and
returns the column names (by literal name only; positional references are
not named)" — the same scan with no `is_template` pre-filter. -/
def fieldColsSpec : Option String → Finset String
  | some v => namesInTemplate v
  | none => ∅

def actionColsSpec (a : WAction) : Finset String :=
  fieldColsSpec a.value ∪ fieldColsSpec a.url ∪ fieldColsSpec a.selector

def sectionColsSpec : Option (List WAction) → Finset String
  | some acts => acts.foldr (fun a acc => actionColsSpec a ∪ acc) ∅
  | none => ∅

def referencedColumnsSpec (cfg : TaskConfig) : Finset String :=
  sectionColsSpec cfg.initialization ∪ sectionColsSpec cfg.pre_loop_actions ∪
    sectionColsSpec cfg.loop_actions ∪ sectionColsSpec cfg.post_loop_actions

/-! ### XPath failure analyzer (`xpath_failure_analyzer.py`)

`_parse_xpath_components` runs `re.findall` with three patterns over the
failed selector:
  1. `//(\w+)\[@(\w+)="([^"]+)"\]`
  2. `//(\w+)\[contains\(@(\w+),\s*"([^"]+)"\)\]`
  3. `//(\w+)\[text\(\)="([^"]+)"\]`
Each pattern is backtracking-free (every repeated class is followed by a
character outside the class), so a direct scanner is exact.  The live page is
abstracted as an oracle `q : String → Except String Nat` giving the number of
elements `page.query_selector_all` finds for a selector, or an error when the
query throws. -/

def takeWordC (l : List Char) : List Char := l.takeWhile isWordC

def dropWordC (l : List Char) : List Char := l.dropWhile isWordC

def takeNonDQ (l : List Char) : List Char := l.takeWhile fun c => c ≠ dquoteC

def dropNonDQ (l : List Char) : List Char := l.dropWhile fun c => c ≠ dquoteC

def stripPrefixC : List Char → List Char → Option (List Char)
  | [], s => some s
  | _ :: _, [] => none
  | p :: ps, c :: cs => if c = p then stripPrefixC ps cs else none

/-- Pattern 1: `//(\w+)\[@(\w+)="([^"]+)"\]` at the current position. -/
def matchComp1 : List Char → Option (BlacklistEntry × List Char)
  | '/' :: '/' :: s =>
    let tag := takeWordC s
    if tag.isEmpty then none
    else
      match dropWordC s with
      | '[' :: '@' :: s2 =>
        let attr := takeWordC s2
        if attr.isEmpty then none
        else
          match dropWordC s2 with
          | '=' :: q1 :: s4 =>
            if q1 = dquoteC then
              let v := takeNonDQ s4
              (if v.isEmpty then none
               else
                 match dropNonDQ s4 with
                 | q2 :: ']' :: s6 =>
                   if q2 = dquoteC then
                     some (⟨String.mk tag, String.mk attr, String.mk v⟩, s6)
                   else none
                 | _ => none)
            else none
          | _ => none
      | _ => none
  | _ => none

/-- Pattern 2: `//(\w+)\[contains\(@(\w+),\s*"([^"]+)"\)\]`. -/
def matchComp2 : List Char → Option (BlacklistEntry × List Char)
  | '/' :: '/' :: s =>
    let tag := takeWordC s
    if tag.isEmpty then none
    else
      match stripPrefixC "[contains(@".data (dropWordC s) with
      | some s2 =>
        let attr := takeWordC s2
        if attr.isEmpty then none
        else
          match dropWordC s2 with
          | ',' :: s4 =>
            (match dropSpaces s4 with
             | q1 :: s5 =>
               if q1 = dquoteC then
                 let v := takeNonDQ s5
                 (if v.isEmpty then none
                  else
                    match dropNonDQ s5 with
                    | q2 :: ')' :: ']' :: s7 =>
                      if q2 = dquoteC then
                        some (⟨String.mk tag, String.mk attr, String.mk v⟩, s7)
                      else none
                    | _ => none)
               else none
             | [] => none)
          | _ => none
      | none => none
  | _ => none

/-- Pattern 3: `//(\w+)\[text\(\)="([^"]+)"\]`; the two-group match is stored
with attribute `"text"`. -/
def matchComp3 : List Char → Option (BlacklistEntry × List Char)
  | '/' :: '/' :: s =>
    let tag := takeWordC s
    if tag.isEmpty then none
    else
      match stripPrefixC "[text()=".data (dropWordC s) with
      | some (q1 :: s2) =>
        if q1 = dquoteC then
          let v := takeNonDQ s2
          (if v.isEmpty then none
           else
             match dropNonDQ s2 with
             | q2 :: ']' :: s4 =>
               if q2 = dquoteC then some (⟨String.mk tag, "text", String.mk v⟩, s4)
               else none
             | _ => none)
        else none
      | _ => none
  | _ => none

/-- `re.findall` for one component pattern: leftmost matches, continuing
after each match.  Fuel equal to the initial length dominates the recursion
depth (a successful match consumes at least one character). -/
def findAllF (m : List Char → Option (BlacklistEntry × List Char)) :
    Nat → List Char → List BlacklistEntry
  | 0, _ => []
  | _ + 1, [] => []
  | fuel + 1, c :: cs =>
    match m (c :: cs) with
    | some (comp, rest) => comp :: findAllF m fuel rest
    | none => findAllF m fuel cs

/-- `XPathFailureAnalyzer._parse_xpath_components` (lines 40-70): all matches
of pattern 1, then of pattern 2, then of pattern 3. -/
def parse_xpath_components (x : String) : List BlacklistEntry :=
  findAllF matchComp1 x.data.length x.data ++
    findAllF matchComp2 x.data.length x.data ++
    findAllF matchComp3 x.data.length x.data

/-- The isolated re-query selector built in `_test_component_exists`
(lines 82-88). -/
def build_test_selector (c : BlacklistEntry) : String :=
  if c.attr = "text" then "//" ++ c.element ++ "[text()=\"" ++ c.value ++ "\"]"
  else if c.attr = "class" then
    "//" ++ c.element ++ "[contains(@class, \"" ++ c.value ++ "\")]"
  else "//" ++ c.element ++ "[@" ++ c.attr ++ "=\"" ++ c.value ++ "\"]"

/-- `XPathFailureAnalyzer._test_component_exists` (lines 72-95): empty fields
fail the test, a throwing page query is caught and fails the test, otherwise
the component exists iff the isolated query matches at least one element. -/
def test_component_exists (q : String → Except String Nat) (c : BlacklistEntry) : Bool :=
  if c.element = "" || c.attr = "" || c.value = "" then false
  else
    match q (build_test_selector c) with
    | .ok n => decide (0 < n)
    | .error _ => false

/-- The body of `analyze_failure` inside its `try` (lines 20-34), written in
the error monad: parsing is pure and the page query's exceptions are caught
inside `test_component_exists`, so the body never escapes with an error. -/
def analyze_failure_body (q : String → Except String Nat) (x : String) :
    Except String (List BlacklistEntry) :=
  .ok ((parse_xpath_components x).filter fun c => !test_component_exists q c)

/-- `XPathFailureAnalyzer.analyze_failure` (lines 15-38): the `except` clause
turns any escaped exception into the empty blacklist. -/
def analyze_failure (q : String → Except String Nat) (x : String) :
    List BlacklistEntry :=
  match analyze_failure_body q x with
  | .ok l => l
  | .error _ => []

/-! ### Workflow executor (`workflow_executor.py`)

`execute_workflow` is modelled over an abstract action type `α` and row type
`β` with an oracle `runAction` giving the structured result `execute_action`
returns (that function wraps everything in `try/except` and always returns a
result dict, so the oracle is total).  Browser initialization performs I/O
only and contributes nothing to the returned record, so it is not modelled
beyond the emptiness check on the configured browsers. -/

structure ActionRes where
  success : Bool
  error : Option String
deriving DecidableEq

structure ActionRecord where
  action_type : Option String
  success : Bool
  error : Option String
deriving DecidableEq

structure RowOutcome where
  row_index : Nat
  success : Bool
  actions : List ActionRecord
deriving DecidableEq

structure WorkflowResult where
  success : Bool
  error : Option String
  total_rows : Nat
  successful_rows : Nat
  failed_rows : Nat
  results : List RowOutcome
deriving DecidableEq

def mkActionRecord {α β : Type} (typeOf : α → Option String)
    (runAction : α → β → ActionRes) (a : α) (row : β) : ActionRecord :=
  let res := runAction a row
  ⟨typeOf a, res.success, res.error⟩

/-- The per-row loop of `execute_workflow` (lines 70-98), with the pandas
default RangeIndex: the running row index, counts of successful and failed
rows, and the accumulated row results. -/
def processRows {α β : Type} (typeOf : α → Option String)
    (runAction : α → β → ActionRes) (actions : List α) :
    Nat → List β → Nat × Nat × List RowOutcome
  | _, [] => (0, 0, [])
  | i, row :: rest =>
    let recs := actions.map fun a => mkActionRecord typeOf runAction a row
    let rowSuccess := recs.all fun r => r.success
    let (s, f, tail) := processRows typeOf runAction actions (i + 1) rest
    (if rowSuccess then s + 1 else s,
     if rowSuccess then f else f + 1,
     ⟨i, rowSuccess, recs⟩ :: tail)

/-- `WorkflowExecutor.execute_workflow` (workflow_executor.py lines 14-106). -/
def execute_workflow {α β : Type} (typeOf : α → Option String)
    (runAction : α → β → ActionRes) (actions : List α)
    (browsers : List String) (data : List β) : WorkflowResult :=
  if actions.isEmpty then
    ⟨false, some "No actions in workflow", 0, 0, 0, []⟩
  else if browsers.isEmpty then
    ⟨false, some "No browsers configured in workflow", 0, 0, 0, []⟩
  else
    let (s, f, results) := processRows typeOf runAction actions 0 data
    ⟨true, none, data.length, s, f, results⟩

/-! ### Waits and cancellation (`action_handlers.handle_wait_seconds`,
`TaskExecutionThread._execute_wait`)

A sleep sequence is modelled as the list of uninterruptible sleep intervals
the code performs; `checks = true` means the cooperative stop flag is
consulted before each interval (as `_execute_wait` does), `checks = false`
means it never is (as `handle_wait_seconds`, which performs one
`asyncio.sleep` with no cancellation check).  `sleepRun checks t chunks e`
returns the total elapsed time when a stop signal is raised at time `t`
(a check observes the signal iff the elapsed time has reached `t`). -/

def sleepRun (checks : Bool) (tSignal : ℚ) : List ℚ → ℚ → ℚ
  | [], elapsed => elapsed
  | c :: rest, elapsed =>
    if checks && decide (tSignal ≤ elapsed) then elapsed
    else sleepRun checks tSignal rest (elapsed + c)

/-- `handle_wait_seconds` (action_handlers.py lines 126-134): a single
`await asyncio.sleep(seconds)`. -/
def handle_wait_seconds_chunks (seconds : ℚ) : List ℚ := [seconds]

/-- `chunks = max(1, int(duration * 10))` (task_execution_thread.py line 358);
`int()` truncates toward zero, which for the claims' positive durations is
the floor. -/
def waitChunkCount (duration : ℚ) : Nat := max 1 (Int.toNat ⌊duration * 10⌋)

/-- `chunk_duration = duration / chunks` (line 359). -/
def waitChunkDuration (duration : ℚ) : ℚ := duration / (waitChunkCount duration : ℚ)

/-- `TaskExecutionThread._execute_wait` (lines 352-369): `chunks` sleeps of
`chunk_duration` with `self.should_stop` checked before each. -/
def execute_wait_chunks (duration : ℚ) : List ℚ :=
  List.replicate (waitChunkCount duration) (waitChunkDuration duration)

/-! ### Element picker page state (`element_picker.py` and
`element_picker_clean.py`)

The page's picker-relevant state: whether the highlight overlay div
(`element-picker-overlay`) is attached, whether the anonymous listener triple
injected by the legacy picker is attached, whether the
`window.pickerListeners`-registered triple of the clean picker is attached,
and whether each picker `window` variable is defined (an assignment such as
`window.elementPickerActive = false` leaves the variable defined; only
`delete` clears it).  `pick` is modelled as a transition on this state
parameterised by whether the user clicks before the 30 s
`wait_for_function` timeout; the second component of the result is the
returned `success` flag. -/

structure PageState where
  overlayPresent : Bool
  anonListeners : Bool
  storedListeners : Bool
  varPickerListeners : Bool
  varPickerActive : Bool
  varClickedElement : Bool
  varLastHighlighted : Bool
deriving DecidableEq

def initialPage : PageState := ⟨false, false, false, false, false, false, false⟩

/-- `ElementPicker.pick_element` of element_picker.py (lines 15-169).
Injection (lines 36-97) creates the overlay, adds three anonymous listeners
and defines `elementPickerActive` and `lastHighlighted`; it never defines
`window.pickerListeners`.  On a click, the capture handler (lines 77-96)
defines `clickedElement` and removes the overlay, and the success cleanup
(lines 125-140) skips `removeEventListener` (the `window.pickerListeners`
guard is false), deletes the variables and removes any leftover overlay.
On timeout, the error cleanup (line 159) only assigns
`elementPickerActive = false` and deletes `clickedElement`. -/
def pick_element_legacy (userClicks : Bool) (s : PageState) : PageState × Bool :=
  let injected : PageState :=
    { s with overlayPresent := true, anonListeners := true,
             varPickerActive := true, varLastHighlighted := true }
  if userClicks then
    let clicked : PageState :=
      { injected with varClickedElement := true, overlayPresent := false }
    let cleaned : PageState :=
      let afterListeners :=
        if clicked.varPickerListeners then
          { clicked with storedListeners := false, varPickerListeners := false }
        else clicked
      { afterListeners with varClickedElement := false, varPickerActive := false,
                            varLastHighlighted := false, overlayPresent := false }
    (cleaned, true)
  else
    ({ injected with varClickedElement := false }, false)

/-- `ElementPicker.pick_element` of element_picker_clean.py (lines 15-157).
Step 1 (lines 23-33) removes any existing overlay and deletes the four
variables; injection (lines 36-98) creates the overlay, stores the listener
triple in `window.pickerListeners` and attaches it, and defines
`elementPickerActive` and `clickedElement`.  Both the success cleanup
(lines 108-125) and the emergency cleanup (lines 137-148) detach the stored
listeners, remove the overlay and delete the variables. -/
def pick_element_clean (userClicks : Bool) (s : PageState) : PageState × Bool :=
  let slate : PageState :=
    { s with overlayPresent := false, varPickerActive := false,
             varClickedElement := false, varLastHighlighted := false,
             varPickerListeners := false }
  let injected : PageState :=
    { slate with overlayPresent := true, storedListeners := true,
                 varPickerListeners := true, varPickerActive := true,
                 varClickedElement := true }
  if userClicks then
    let cleaned : PageState :=
      { injected with storedListeners := false, overlayPresent := false,
                      varPickerActive := false, varClickedElement := false,
                      varLastHighlighted := false, varPickerListeners := false }
    (cleaned, true)
  else
    let cleaned : PageState :=
      { injected with storedListeners := false, overlayPresent := false,
                      varPickerActive := false, varClickedElement := false,
                      varPickerListeners := false }
    (cleaned, false)

/-! ### Concrete inputs used by the claims -/

/-- The template string of claims C6/C7: a single span whose
expression is a quoted column reference to `email`. -/
def tplColEmail : String := "\x7b\x7bcol(\x27email\x27)\x7d\x7d"

/-- The failed selector of claim C4. -/
def exampleXPath : String := "//div[@class=\"abc123\"]//button[@id=\"submit-old\"]"

/-- The page of claim C4: the `abc123` div still matches its isolated
re-query, the `submit-old` button does not. -/
def exampleQueryNat : String → Nat := fun s =>
  if s = "//div[contains(@class, \"abc123\")]" then 1 else 0

def exampleQuery : String → Except String Nat := fun s => .ok (exampleQueryNat s)


/-! ## Helper lemmas -/

theorem add_ancestor_context_eq_findSome (bl : List BlacklistEntry) (base : String) :
    ∀ l : List ElementInfo, add_ancestor_context bl base l =
      ((l.findSome? (get_clean_ancestor_selector bl)).getD "") ++ base
  | [] => by simp [add_ancestor_context, List.findSome?]
  | a :: rest => by
    simp only [add_ancestor_context, List.findSome?]
    cases h : get_clean_ancestor_selector bl a with
    | some ctx => simp
    | none => simpa using add_ancestor_context_eq_findSome bl base rest

theorem buildCandidates_two_le (bl : List BlacklistEntry) (t : ElementInfo)
    (v : String) (h : lookupAttr (get_clean_attributes bl t) "id" = some v) :
    1 < (buildCandidates bl t).length := by
  simp [buildCandidates, h, List.length_append]

theorem takeWhile_append_stop {p : Char → Bool} {l r : List Char} {x : Char}
    (hl : ∀ c ∈ l, p c = true) (hx : p x = false) :
    (l ++ x :: r).takeWhile p = l ∧ (l ++ x :: r).dropWhile p = x :: r := by
  induction l with
  | nil => simp [List.takeWhile_cons, List.dropWhile_cons, hx]
  | cons a t ih =>
    have ha : p a = true := hl a (by simp)
    have ht : ∀ c ∈ t, p c = true := fun c hc => hl c (by simp [hc])
    obtain ⟨h1, h2⟩ := ih ht
    simp [List.takeWhile_cons, List.dropWhile_cons, ha, h1, h2]

theorem stripChars_eq_self {l : List Char}
    (h1 : ∀ c, l.head? = some c → isPySpace c = false)
    (h2 : ∀ c, l.getLast? = some c → isPySpace c = false) :
    stripChars l = l := by
  cases l with
  | nil => rfl
  | cons a t =>
    have ha : isPySpace a = false := h1 a rfl
    unfold stripChars
    rw [List.dropWhile_cons, ha]
    simp only [Bool.false_eq_true, if_false]
    cases hr : (a :: t).reverse with
    | nil => simp at hr
    | cons d r =>
      have hd : (a :: t).getLast? = some d := by
        rw [← List.head?_reverse, hr]; rfl
      have hds : isPySpace d = false := h2 d hd
      have hdrop : List.dropWhile isPySpace (d :: r) = d :: r := by
        rw [List.dropWhile_cons, hds]; simp
      rw [hdrop]
      simpa using congrArg List.reverse hr.symm

theorem matchSpan_exact {inner rest : List Char} (h1 : inner ≠ [])
    (h2 : ∀ c ∈ inner, c ≠ rbraceC) :
    matchSpan (lbraceC :: lbraceC :: (inner ++ rbraceC :: rbraceC :: rest)) =
      some (inner, rest) := by
  have hp : ∀ c ∈ inner, neRB c = true := by
    intro c hc; simpa [neRB] using h2 c hc
  obtain ⟨ht, hd⟩ := @takeWhile_append_stop neRB inner (rbraceC :: rest) rbraceC
    hp (by simp [neRB])
  have hie : inner.isEmpty = false := by simpa [List.isEmpty_iff] using h1
  simp [matchSpan, ht, hd, hie]

theorem splitSpans_single {inner : List Char} (h1 : inner ≠ [])
    (h2 : ∀ c ∈ inner, c ≠ rbraceC) :
    splitSpans (lbraceC :: lbraceC :: (inner ++ rbraceC :: rbraceC :: [])) =
      [Sum.inr inner] := by
  have hm := @matchSpan_exact inner [] h1 h2
  have hlen : (lbraceC :: lbraceC :: (inner ++ rbraceC :: rbraceC :: [])).length
      = inner.length + 3 + 1 := by simp
  unfold splitSpans
  rw [hlen]
  simp [splitSpansF, hm]


theorem parseColFun_quoted {name : List Char} (h1 : name ≠ [])
    (h2 : ∀ c ∈ name, isQuoteC c = false) :
    parseColFun ('c' :: 'o' :: 'l' :: '(' :: squoteC :: (name ++ squoteC :: ')' :: [])) =
      some (true, name) := by
  have hp : ∀ c ∈ name, (fun c => !isQuoteC c) c = true := by
    intro c hc; simp [h2 c hc]
  obtain ⟨ht, hd⟩ := @takeWhile_append_stop (fun c => !isQuoteC c) name (')' :: [])
    squoteC hp (by simp [isQuoteC])
  have hie : name.isEmpty = false := by simpa [List.isEmpty_iff] using h1
  simp +decide [parseColFun, parseColTail, dropSpaces, takeNonQuote, dropNonQuote,
    afterParamCloses, ht, hd, hie, List.dropWhile_cons]


example (a b : String) (h : a.data = b.data) : a = b := String.ext h
example (s t : String) : (s ++ t).data = s.data ++ t.data := String.data_append s t

theorem evaluate_template_single_span (df : DataFrame) (ri : Nat) (dv : Option String)
    {inner : List Char} (h1 : inner ≠ []) (h2 : ∀ c ∈ inner, c ≠ rbraceC) :
    evaluate_template df ri dv
        (String.mk (lbraceC :: lbraceC :: (inner ++ rbraceC :: rbraceC :: []))) =
      (match evaluate_expression df ri (stripChars inner), dv with
       | .ok r, _ => .ok r
       | .error _, some d => .ok d
       | .error e, none =>
         .error ("Template evaluation failed: " ++ String.mk (stripChars inner) ++ " - " ++ e)) := by
  have hs := splitSpans_single h1 h2
  have hdata : (String.mk (lbraceC :: lbraceC :: (inner ++ rbraceC :: rbraceC :: []))).data
      = lbraceC :: lbraceC :: (inner ++ rbraceC :: rbraceC :: []) := rfl
  unfold evaluate_template is_template
  rw [hdata, hs]
  cases he : evaluate_expression df ri (stripChars inner) with
  | ok r =>
    cases dv <;> simp [renderTokensE, he]
  | error e =>
    cases dv <;> simp [renderTokensE, he]


theorem evaluate_template_missing_column (name : String) (df : DataFrame) (ri : Nat)
    (h1 : name ≠ "") (h2 : ∀ c ∈ name.data, isQuoteC c = false ∧ c ≠ rbraceC)
    (h3 : df.columns.contains name = false) :
    evaluate_template df ri none ("\x7b\x7bcol(\x27" ++ name ++ "\x27)\x7d\x7d") =
      .error ("Template evaluation failed: col(\x27" ++ name ++ "\x27) - Column \x27"
        ++ name ++ "\x27 not found") ∧
    ∀ d : String,
      evaluate_template df ri (some d) ("\x7b\x7bcol(\x27" ++ name ++ "\x27)\x7d\x7d") =
        .ok d := by
  have hname : name.data ≠ [] := fun h => h1 (String.ext h)
  have hq : ∀ c ∈ name.data, isQuoteC c = false := fun c hc => (h2 c hc).1
  have hrb : ∀ c ∈ name.data, c ≠ rbraceC := fun c hc => (h2 c hc).2
  have hinner_ne : ('c' :: 'o' :: 'l' :: '(' :: squoteC :: (name.data ++ squoteC :: ')' :: [])) ≠ [] := by
    simp
  have hinner_rb : ∀ c ∈ ('c' :: 'o' :: 'l' :: '(' :: squoteC :: (name.data ++ squoteC :: ')' :: [])),
      c ≠ rbraceC := by
    intro c hc
    simp only [List.mem_cons, List.mem_append] at hc
    rcases hc with h | h | h | h | h | (h | h)
    · subst h; decide
    · subst h; decide
    · subst h; decide
    · subst h; decide
    · subst h; decide
    · exact hrb c h
    · rcases h with h | h | h
      · subst h; decide
      · subst h; decide
      · cases h
  have htpl : ("\x7b\x7bcol(\x27" ++ name ++ "\x27)\x7d\x7d") =
      String.mk (lbraceC :: lbraceC ::
        (('c' :: 'o' :: 'l' :: '(' :: squoteC :: (name.data ++ squoteC :: ')' :: [])) ++
          rbraceC :: rbraceC :: [])) := by
    apply String.ext
    simp +decide [String.data_append]
  have hstrip : stripChars ('c' :: 'o' :: 'l' :: '(' :: squoteC :: (name.data ++ squoteC :: ')' :: []))
      = 'c' :: 'o' :: 'l' :: '(' :: squoteC :: (name.data ++ squoteC :: ')' :: []) := by
    apply stripChars_eq_self
    · intro c hc
      simp only [List.head?] at hc
      injection hc with hc
      subst hc; decide
    · intro c hc
      rw [← List.head?_reverse] at hc
      simp at hc
      subst hc
      decide
  have hparse : parseColFun (stripChars ('c' :: 'o' :: 'l' :: '(' :: squoteC ::
      (name.data ++ squoteC :: ')' :: []))) = some (true, name.data) := by
    rw [hstrip]
    exact parseColFun_quoted hname hq
  have heval : evaluate_expression df ri (stripChars ('c' :: 'o' :: 'l' :: '(' :: squoteC ::
      (name.data ++ squoteC :: ')' :: []))) =
      .error ("Column \x27" ++ name ++ "\x27 not found") := by
    rw [hstrip]
    unfold evaluate_expression
    rw [hstrip, parseColFun_quoted hname hq]
    have h3a : (df.columns.contains (String.mk name.data)) = false := h3
    have h3b : (String.mk name.data) ∉ df.columns := by simpa using h3a
    simp [h3b]
  have hmsg : ("Template evaluation failed: " ++
      String.mk (stripChars ('c' :: 'o' :: 'l' :: '(' :: squoteC ::
        (name.data ++ squoteC :: ')' :: []))) ++ " - " ++
      ("Column \x27" ++ name ++ "\x27 not found")) =
      ("Template evaluation failed: col(\x27" ++ name ++ "\x27) - Column \x27" ++ name
        ++ "\x27 not found") := by
    rw [hstrip]
    apply String.ext
    simp +decide [String.data_append]
  constructor
  · rw [htpl, evaluate_template_single_span df ri none hinner_ne hinner_rb, heval, ← hmsg]
  · intro d
    rw [htpl, evaluate_template_single_span df ri (some d) hinner_ne hinner_rb, heval]


theorem evaluate_template_unsupported_expr (inner : String) (df : DataFrame) (ri : Nat)
    (h1 : inner ≠ "") (h2 : ∀ c ∈ inner.data, c ≠ rbraceC)
    (hs : stripChars inner.data = inner.data)
    (hp : parseColFun inner.data = none) :
    evaluate_template df ri none ("\x7b\x7b" ++ inner ++ "\x7d\x7d") =
      .error ("Template evaluation failed: " ++ inner ++ " - Unsupported expression: "
        ++ inner) ∧
    ∀ d : String,
      evaluate_template df ri (some d) ("\x7b\x7b" ++ inner ++ "\x7d\x7d") = .ok d := by
  have hne : inner.data ≠ [] := fun h => h1 (String.ext h)
  have htpl : ("\x7b\x7b" ++ inner ++ "\x7d\x7d") =
      String.mk (lbraceC :: lbraceC :: (inner.data ++ rbraceC :: rbraceC :: [])) := by
    apply String.ext
    simp +decide [String.data_append]
  have heval : evaluate_expression df ri (stripChars inner.data) =
      .error ("Unsupported expression: " ++ inner) := by
    rw [hs]
    unfold evaluate_expression
    rw [hs, hp]
  have hmsg : ("Template evaluation failed: " ++ String.mk (stripChars inner.data)
      ++ " - " ++ ("Unsupported expression: " ++ inner)) =
      ("Template evaluation failed: " ++ inner ++ " - Unsupported expression: " ++ inner) := by
    rw [hs]
    apply String.ext
    simp [String.data_append]
  constructor
  · rw [htpl, evaluate_template_single_span df ri none hne h2, heval, ← hmsg]
  · intro d
    rw [htpl, evaluate_template_single_span df ri (some d) hne h2, heval]



theorem filterMapSpans_nil {toks : List (Char ⊕ List Char)}
    (h : toks.any Sum.isRight = false) :
    (toks.filterMap fun tok => match tok with
      | Sum.inr inner => colNameOfSpan inner
      | Sum.inl _ => none) = [] := by
  induction toks with
  | nil => rfl
  | cons tok rest ih =>
    simp only [List.any_cons, Bool.or_eq_false_iff] at h
    obtain ⟨h1, h2⟩ := h
    cases tok with
    | inl c => simpa using ih h2
    | inr i => simp [Sum.isRight] at h1

theorem namesInTemplate_of_not_template {v : String} (h : is_template v = false) :
    namesInTemplate v = ∅ := by
  unfold namesInTemplate
  rw [filterMapSpans_nil h]
  rfl

theorem fieldCols_eq_spec (ov : Option String) : fieldCols ov = fieldColsSpec ov := by
  cases ov with
  | none => rfl
  | some v =>
    unfold fieldCols fieldColsSpec
    cases h : is_template v with
    | true => simp [h]
    | false => simp [h, namesInTemplate_of_not_template h]

theorem actionCols_eq_spec (a : WAction) : actionCols a = actionColsSpec a := by
  unfold actionCols actionColsSpec
  rw [fieldCols_eq_spec, fieldCols_eq_spec, fieldCols_eq_spec]

theorem foldr_actionCols_eq (acts : List WAction) :
    acts.foldr (fun a acc => actionCols a ∪ acc) ∅ =
      acts.foldr (fun a acc => actionColsSpec a ∪ acc) ∅ := by
  induction acts with
  | nil => rfl
  | cons a t ih => simp only [List.foldr_cons, actionCols_eq_spec a, ih]

theorem sectionCols_eq_spec (os : Option (List WAction)) :
    sectionCols os = sectionColsSpec os := by
  cases os with
  | none => rfl
  | some acts => exact foldr_actionCols_eq acts

theorem extract_eq_spec (cfg : TaskConfig) :
    extract_required_columns cfg = referencedColumnsSpec cfg := by
  unfold extract_required_columns referencedColumnsSpec
  rw [sectionCols_eq_spec, sectionCols_eq_spec, sectionCols_eq_spec, sectionCols_eq_spec]

theorem digit_not_quote {c : Char} (h : isDigC c = true) : isQuoteC c = false := by
  simp only [isDigC, Bool.and_eq_true, decide_eq_true_eq] at h
  simp only [isQuoteC, squoteC, dquoteC, Bool.or_eq_false_iff, decide_eq_false_iff_not]
  obtain ⟨h1, h2⟩ := h
  constructor <;> (intro he; subst he; revert h1 h2; decide)

theorem digit_not_space {c : Char} (h : isDigC c = true) : isPySpace c = false := by
  simp only [isDigC, Bool.and_eq_true, decide_eq_true_eq] at h
  obtain ⟨h1, h2⟩ := h
  simp only [isPySpace, Bool.or_eq_false_iff, decide_eq_false_iff_not]
  refine ⟨⟨⟨⟨⟨?_, ?_⟩, ?_⟩, ?_⟩, ?_⟩, ?_⟩ <;> (intro he; subst he; revert h1 h2; decide)

theorem digit_not_rb {c : Char} (h : isDigC c = true) : c ≠ rbraceC := by
  simp only [isDigC, Bool.and_eq_true, decide_eq_true_eq] at h
  obtain ⟨h1, h2⟩ := h
  intro he; subst he; revert h1 h2; decide

theorem parseColFun_digits {ds : List Char} (h1 : ds ≠ [])
    (h2 : ∀ c ∈ ds, isDigC c = true) :
    parseColFun ('c' :: 'o' :: 'l' :: '(' :: (ds ++ [')'])) = some (false, ds) := by
  have hnq : ∀ c ∈ ds ++ [')'], (fun c => !isQuoteC c) c = true := by
    intro c hc
    rcases List.mem_append.mp hc with h | h
    · simp [digit_not_quote (h2 c h)]
    · simp only [List.mem_singleton] at h
      subst h; decide
  have htake : takeNonQuote (ds ++ [')']) = ds ++ [')'] := by
    unfold takeNonQuote
    exact List.takeWhile_eq_self_iff.mpr hnq
  have hdrop : dropNonQuote (ds ++ [')']) = [] := by
    unfold dropNonQuote
    exact List.dropWhile_eq_nil_iff.mpr fun x hx => hnq x hx
  obtain ⟨d, ds', rfl⟩ : ∃ d ds', ds = d :: ds' := by
    cases ds with
    | nil => exact absurd rfl h1
    | cons d t => exact ⟨d, t, rfl⟩
  have hds : isPySpace d = false := digit_not_space (h2 d (by simp))
  have hq : isQuoteC d = false := digit_not_quote (h2 d (by simp))
  have hbt : btParam (')' :: (d :: ds').reverse) [] = some (d :: ds') := by
    cases hrev : (d :: ds').reverse with
    | nil => simp at hrev
    | cons r rs =>
      simp only [btParam]
      rw [show afterParamCloses [] = false from rfl]
      simp only [Bool.false_eq_true, if_false, btParam]
      rw [show afterParamCloses [')'] = true from by decide]
      simp only [if_true]
      rw [← hrev, List.reverse_reverse]
  have htake2 : takeNonQuote (d :: (ds' ++ [')'])) = d :: (ds' ++ [')']) := by
    simpa using htake
  have hdrop2 : dropNonQuote (d :: (ds' ++ [')'])) = [] := by
    simpa using hdrop
  have hrev2 : (d :: (ds' ++ [')'])).reverse = ')' :: (d :: ds').reverse := by
    simp
  simp +decide only [parseColFun, parseColTail, dropSpaces, List.dropWhile_cons, hds, hq,
    Bool.false_eq_true, if_false]
  simp only [if_true]
  rw [show List.dropWhile isPySpace (d :: ds' ++ [')']) = d :: ds' ++ [')'] from by
    simp +decide [List.dropWhile_cons, hds]]
  split
  next q s2 heq =>
    injection heq with hqd hs2
    subst hqd
    subst hs2
    rw [hq]
    simp only [Bool.false_eq_true, if_false, List.append_eq]
    rw [htake2, hrev2, hdrop2, hbt]
    rfl
  next heq => exact absurd heq (by simp)



theorem extract_positional_empty (ds : String) (h1 : ds ≠ "") (h2 : ∀ c ∈ ds.data, isDigC c = true) :
    extract_required_columns ⟨none, none,
      some [⟨some ("\x7b\x7bcol(" ++ ds ++ ")\x7d\x7d"), none, none⟩], none⟩ = ∅ := by
  have hne : ds.data ≠ [] := fun h => h1 (String.ext h)
  have hinner_ne : ('c' :: 'o' :: 'l' :: '(' :: (ds.data ++ [')'])) ≠ [] := by simp
  have hinner_rb : ∀ c ∈ ('c' :: 'o' :: 'l' :: '(' :: (ds.data ++ [')'])), c ≠ rbraceC := by
    intro c hc
    simp only [List.mem_cons, List.mem_append, List.mem_singleton] at hc
    rcases hc with h | h | h | h | (h | (h | h))
    · subst h; decide
    · subst h; decide
    · subst h; decide
    · subst h; decide
    · exact digit_not_rb (h2 c h)
    · subst h; decide
    · cases h
  have htpl : ("\x7b\x7bcol(" ++ ds ++ ")\x7d\x7d") =
      String.mk (lbraceC :: lbraceC ::
        (('c' :: 'o' :: 'l' :: '(' :: (ds.data ++ [')'])) ++ rbraceC :: rbraceC :: [])) := by
    apply String.ext
    simp +decide [String.data_append]
  have hsp : splitSpans (lbraceC :: lbraceC ::
      (('c' :: 'o' :: 'l' :: '(' :: (ds.data ++ [')'])) ++ rbraceC :: rbraceC :: [])) =
      [Sum.inr ('c' :: 'o' :: 'l' :: '(' :: (ds.data ++ [')']))] :=
    splitSpans_single hinner_ne hinner_rb
  have hstrip : stripChars ('c' :: 'o' :: 'l' :: '(' :: (ds.data ++ [')'])) =
      'c' :: 'o' :: 'l' :: '(' :: (ds.data ++ [')']) := by
    apply stripChars_eq_self
    · intro c hc
      injection hc with hc
      subst hc; decide
    · intro c hc
      rw [← List.head?_reverse] at hc
      simp at hc
      subst hc; decide
  have hcol : colNameOfSpan ('c' :: 'o' :: 'l' :: '(' :: (ds.data ++ [')'])) = none := by
    unfold colNameOfSpan
    rw [hstrip, parseColFun_digits hne h2]
  unfold extract_required_columns sectionCols actionCols fieldCols
  simp only [List.foldr_cons, List.foldr_nil]
  have hit : is_template ("\x7b\x7bcol(" ++ ds ++ ")\x7d\x7d") = true := by
    unfold is_template
    rw [htpl]
    rw [show (String.mk (lbraceC :: lbraceC ::
      (('c' :: 'o' :: 'l' :: '(' :: (ds.data ++ [')'])) ++ rbraceC :: rbraceC :: []))).data
      = lbraceC :: lbraceC ::
        (('c' :: 'o' :: 'l' :: '(' :: (ds.data ++ [')'])) ++ rbraceC :: rbraceC :: [])
      from rfl]
    rw [hsp]
    rfl
  have hnames : namesInTemplate ("\x7b\x7bcol(" ++ ds ++ ")\x7d\x7d") = ∅ := by
    unfold namesInTemplate
    rw [htpl]
    rw [show (String.mk (lbraceC :: lbraceC ::
      (('c' :: 'o' :: 'l' :: '(' :: (ds.data ++ [')'])) ++ rbraceC :: rbraceC :: []))).data
      = lbraceC :: lbraceC ::
        (('c' :: 'o' :: 'l' :: '(' :: (ds.data ++ [')'])) ++ rbraceC :: rbraceC :: [])
      from rfl]
    rw [hsp]
    simp [List.filterMap_cons, hcol]
  rw [hit, hnames]
  simp


theorem mk_eq_empty_iff {l : List Char} : (String.mk l = "") ↔ l = [] :=
  ⟨fun h => congrArg String.data h, fun h => by subst h; rfl⟩


theorem matchComp1_fields {s r : List Char} {c : BlacklistEntry}
    (h : matchComp1 s = some (c, r)) :
    c.element ≠ "" ∧ c.attr ≠ "" ∧ c.value ≠ "" := by
  unfold matchComp1 at h
  repeat' split at h
  all_goals simp_all [mk_eq_empty_iff]
  all_goals
    obtain ⟨h1, h2, h3, hcq, -⟩ := h
  all_goals subst hcq
  all_goals exact ⟨by simpa [mk_eq_empty_iff], by simpa [mk_eq_empty_iff],
    by simpa [mk_eq_empty_iff]⟩

theorem matchComp2_fields {s r : List Char} {c : BlacklistEntry}
    (h : matchComp2 s = some (c, r)) :
    c.element ≠ "" ∧ c.attr ≠ "" ∧ c.value ≠ "" := by
  unfold matchComp2 at h
  repeat' split at h
  all_goals simp_all [mk_eq_empty_iff]
  all_goals
    obtain ⟨h1, h2, h3, hcq, -⟩ := h
  all_goals subst hcq
  all_goals exact ⟨by simpa [mk_eq_empty_iff], by simpa [mk_eq_empty_iff],
    by simpa [mk_eq_empty_iff]⟩

theorem matchComp3_fields {s r : List Char} {c : BlacklistEntry}
    (h : matchComp3 s = some (c, r)) :
    c.element ≠ "" ∧ c.attr ≠ "" ∧ c.value ≠ "" := by
  unfold matchComp3 at h
  repeat' split at h
  all_goals simp_all [mk_eq_empty_iff]
  all_goals
    obtain ⟨h1, h3, hcq, -⟩ := h
  all_goals subst hcq
  all_goals refine ⟨by simpa [mk_eq_empty_iff], ?_, by simpa [mk_eq_empty_iff]⟩
  all_goals exact (by decide : ¬"text" = "")


theorem findAllF_fields {m : List Char → Option (BlacklistEntry × List Char)}
    (hm : ∀ s c r, m s = some (c, r) → c.element ≠ "" ∧ c.attr ≠ "" ∧ c.value ≠ "") :
    ∀ (fuel : Nat) (s : List Char) (e : BlacklistEntry),
      e ∈ findAllF m fuel s → e.element ≠ "" ∧ e.attr ≠ "" ∧ e.value ≠ "" := by
  intro fuel
  induction fuel with
  | zero => intro s e he; simp [findAllF] at he
  | succ n ih =>
    intro s e he
    cases s with
    | nil => simp [findAllF] at he
    | cons c cs =>
      rw [findAllF] at he
      cases hm2 : m (c :: cs) with
      | some pr =>
        obtain ⟨comp, rest⟩ := pr
        rw [hm2] at he
        rcases List.mem_cons.mp he with h | h
        · subst h; exact hm _ _ _ hm2
        · exact ih rest e h
      | none =>
        rw [hm2] at he
        exact ih cs e he

theorem parse_fields {x : String} {e : BlacklistEntry}
    (h : e ∈ parse_xpath_components x) :
    e.element ≠ "" ∧ e.attr ≠ "" ∧ e.value ≠ "" := by
  unfold parse_xpath_components at h
  rcases List.mem_append.mp h with h2 | h3
  · rcases List.mem_append.mp h2 with h1 | h2
    · exact findAllF_fields (fun s c r hh => matchComp1_fields hh) _ _ _ h1
    · exact findAllF_fields (fun s c r hh => matchComp2_fields hh) _ _ _ h2
  · exact findAllF_fields (fun s c r hh => matchComp3_fields hh) _ _ _ h3

theorem analyze_membership (q : String → Nat) (x : String) (e : BlacklistEntry) :
    e ∈ analyze_failure (fun s => .ok (q s)) x ↔
      e ∈ parse_xpath_components x ∧ q (build_test_selector e) = 0 := by
  rw [show analyze_failure (fun s => .ok (q s)) x =
    (parse_xpath_components x).filter
      (fun c => !test_component_exists (fun s => .ok (q s)) c) from rfl]
  rw [List.mem_filter]
  constructor
  · rintro ⟨hmem, hp⟩
    refine ⟨hmem, ?_⟩
    obtain ⟨h1, h2, h3⟩ := parse_fields hmem
    unfold test_component_exists at hp
    rw [if_neg (by simp [h1, h2, h3])] at hp
    simp only [Bool.not_eq_true'] at hp
    simpa using hp
  · rintro ⟨hmem, hq0⟩
    refine ⟨hmem, ?_⟩
    obtain ⟨h1, h2, h3⟩ := parse_fields hmem
    unfold test_component_exists
    rw [if_neg (by simp [h1, h2, h3])]
    simp [hq0]

theorem analyze_error_component {q : String → Except String Nat} {x : String}
    {c : BlacklistEntry} (hmem : c ∈ parse_xpath_components x) {err : String}
    (hqe : q (build_test_selector c) = .error err) :
    c ∈ analyze_failure q x := by
  rw [show analyze_failure q x =
    (parse_xpath_components x).filter (fun d => !test_component_exists q d) from rfl]
  rw [List.mem_filter]
  refine ⟨hmem, ?_⟩
  unfold test_component_exists
  split
  · rfl
  · rw [hqe]; rfl

theorem test_empty_field_false (q : String → Except String Nat) (c : BlacklistEntry)
    (h : c.element = "" ∨ c.attr = "" ∨ c.value = "") :
    test_component_exists q c = false := by
  unfold test_component_exists
  rw [if_pos]
  rcases h with h | h | h <;> simp [h]




theorem processRows_parts {α β : Type} (typeOf : α → Option String)
    (runAction : α → β → ActionRes) (actions : List α) :
    ∀ (data : List β) (start : Nat),
      (processRows typeOf runAction actions start data).2.2.length = data.length ∧
      (processRows typeOf runAction actions start data).1 +
        (processRows typeOf runAction actions start data).2.1 = data.length ∧
      (processRows typeOf runAction actions start data).2.2.map RowOutcome.row_index =
        List.range' start data.length ∧
      (∀ (i : Nat) (row : β), data[i]? = some row →
        (processRows typeOf runAction actions start data).2.2[i]? =
          some ⟨start + i,
            (actions.map fun a => mkActionRecord typeOf runAction a row).all
              (fun r => r.success),
            actions.map fun a => mkActionRecord typeOf runAction a row⟩) := by
  intro data
  induction data with
  | nil =>
    intro start
    refine ⟨rfl, rfl, rfl, ?_⟩
    intro i row h
    simp at h
  | cons row rest ih =>
    intro start
    obtain ⟨ih1, ih2, ih3, ih4⟩ := ih (start + 1)
    simp only [processRows]
    generalize hP : processRows typeOf runAction actions (start + 1) rest = P
      at ih1 ih2 ih3 ih4 ⊢
    obtain ⟨s, f, tail⟩ := P
    simp only at ih1 ih2 ih3 ih4 ⊢
    refine ⟨?_, ?_, ?_, ?_⟩
    · simp [ih1]
    · by_cases hb : ((actions.map fun a => mkActionRecord typeOf runAction a row).all
          (fun r => r.success)) = true
      · simp only [hb, if_true, List.length_cons]
        omega
      · simp only [Bool.not_eq_true] at hb
        simp only [hb, Bool.false_eq_true, if_false, List.length_cons]
        omega
    · simp [ih3, List.range'_succ]
    · intro i row2 hrow
      cases i with
      | zero =>
        simp only [List.getElem?_cons_zero] at hrow
        injection hrow with hrow
        subst hrow
        simp
      | succ j =>
        simp only [List.getElem?_cons_succ] at hrow
        have h4 := ih4 j row2 hrow
        simp only [List.getElem?_cons_succ]
        rw [h4]
        have he : start + 1 + j = start + (j + 1) := by omega
        rw [he]


theorem sleepRun_le_sum (t : ℚ) :
    ∀ (l : List ℚ) (e : ℚ), (∀ c ∈ l, 0 ≤ c) → sleepRun true t l e ≤ e + l.sum := by
  intro l
  induction l with
  | nil => intro e _; simp [sleepRun]
  | cons c rest ih =>
    intro e hc
    have hc0 : 0 ≤ c := hc c (by simp)
    have hrest : ∀ x ∈ rest, 0 ≤ x := fun x hx => hc x (by simp [hx])
    have hsum : 0 ≤ rest.sum := List.sum_nonneg hrest
    rw [sleepRun]
    split
    · simp only [List.sum_cons]
      linarith
    · have := ih (e + c) hrest
      simp only [List.sum_cons]
      linarith

theorem sleepRun_le_signal (t c0 : ℚ) :
    ∀ (n : Nat) (e : ℚ), sleepRun true t (List.replicate n c0) e ≤ max e (t + c0) := by
  intro n
  induction n with
  | zero =>
    intro e
    simp [sleepRun, List.replicate]
  | succ m ih =>
    intro e
    rw [List.replicate_succ, sleepRun]
    split
    next h =>
      exact le_max_left e (t + c0)
    next h =>
      simp only [Bool.and_eq_true, decide_eq_true_eq] at h
      have he : e < t := by
        by_contra hcon
        push_neg at hcon
        exact h ⟨trivial, hcon⟩
      calc sleepRun true t (List.replicate m c0) (e + c0)
          ≤ max (e + c0) (t + c0) := ih (e + c0)
        _ ≤ max e (t + c0) := by
            apply max_le
            · apply le_max_of_le_right
              linarith
            · exact le_max_right _ _
  
theorem waitChunkCount_pos (d : ℚ) : 0 < waitChunkCount d := by
  unfold waitChunkCount
  omega

theorem waitChunkDuration_pos {d : ℚ} (hd : 0 < d) : 0 < waitChunkDuration d := by
  unfold waitChunkDuration
  apply div_pos hd
  exact_mod_cast waitChunkCount_pos d

theorem execute_wait_chunks_sum (d : ℚ) : (execute_wait_chunks d).sum = d := by
  unfold execute_wait_chunks waitChunkDuration
  rw [List.sum_replicate]
  rw [nsmul_eq_mul]
  rw [mul_div_cancel₀]
  exact_mod_cast (waitChunkCount_pos d).ne'


/-! ## Claim theorems -/


/-- C1: for a target element whose id passes the classifier and is not
blacklisted, the builder's base selector is the id-based candidate, ranked
ahead of every other rule (with both a clean `id="email-input"` and a clean
`name="email"`, the id candidate wins and the name candidate is never the
base) — but the emitted string is `//[@id="email-input"]`, not the
`//*[@id="email-input"]` the claim states: the code's f-string omits the `*`
node test, producing syntactically invalid XPath. -/
theorem c1_clean_id_base_selector :
    buildCandidates [] ⟨"input", [("id", "email-input"), ("name", "email")], ""⟩ =
      ["//[@id=\"email-input\"]", "//input[@name=\"email\"]", "//input"] ∧
    baseSelector [] ⟨"input", [("id", "email-input"), ("name", "email")], ""⟩ =
      "//[@id=\"email-input\"]" ∧
    build_unique_xpath [] ⟨"input", [("id", "email-input"), ("name", "email")], ""⟩ [] =
      "//[@id=\"email-input\"]" ∧
    ("//[@id=\"email-input\"]" ≠ "//*[@id=\"email-input\"]") := by
  refine ⟨by decide, by decide, by decide, by decide⟩

/-- C2 (counterexample): an element with a clean id (base rule 1) and a
`form` ancestor still gets the ancestor prefix prepended — the claim's
"prepends if and only if the chosen base rule is not rule 1" fails in the
only-if direction. -/
theorem c2_prefix_despite_rule1_counterexample :
    baseSelector [] ⟨"input", [("id", "email-input")], ""⟩ =
      "//[@id=\"email-input\"]" ∧
    build_unique_xpath [] ⟨"input", [("id", "email-input")], ""⟩ [⟨"form", [], ""⟩] =
      "//form//[@id=\"email-input\"]" ∧
    build_unique_xpath [] ⟨"input", [("id", "email-input")], ""⟩ [⟨"form", [], ""⟩] ≠
      baseSelector [] ⟨"input", [("id", "email-input")], ""⟩ := by
  refine ⟨by decide, by decide, by decide⟩

/-- C2 (amended): the builder always attempts ancestor qualification — the
guard `len(candidates) > 1 or no clean id` is always satisfied, because the
bare-tag fallback is always appended — and the prefix it prepends is the
selector of the first ancestor, walking the chain nearest-first, for which
`_get_clean_ancestor_selector` succeeds (semantic landmark tag, clean id, or
clean class token); when no ancestor qualifies the base selector is returned
unqualified. -/
theorem c2_ancestor_context_always (bl : List BlacklistEntry) (t : ElementInfo)
    (ancestors : List ElementInfo) :
    build_unique_xpath bl t ancestors =
      ((ancestors.findSome? (get_clean_ancestor_selector bl)).getD "") ++
        baseSelector bl t := by
  rw [build_unique_xpath,
    ← add_ancestor_context_eq_findSome bl (baseSelector bl t) ancestors]
  cases h : lookupAttr (get_clean_attributes bl t) "id" with
  | some v =>
    have := buildCandidates_two_le bl t v h
    simp only [baseSelector]
    rw [if_pos]
    simp [this]
  | none => simp [baseSelector, h]

/-- C3: the classifier accepts a string exactly when its length is between 2
and 30 and it matches one of the five whole-string patterns (all-lowercase,
kebab-case, camelCase, snake_case, PascalCase, with Python's `$` semantics);
`login-form`, `firstName`, `header` are semantic; `a1b2c3d4`, `ember482`,
the empty string, and every 40-character string are non-semantic.  The
function is pure by construction in this embedding. -/
theorem c3_classifier_characterization :
    (∀ s : String, is_semantic s = true ↔
      (2 ≤ s.length ∧ s.length ≤ 30 ∧
        (dollarMatch patLower s.data = true ∨ dollarMatch patKebab s.data = true ∨
         dollarMatch patCamel s.data = true ∨ dollarMatch patSnake s.data = true ∨
         dollarMatch patPascal s.data = true))) ∧
    (is_semantic "login-form" && is_semantic "firstName" && is_semantic "header" &&
     !is_semantic "a1b2c3d4" && !is_semantic "ember482" && !is_semantic "") = true ∧
    (∀ s : String, s.length = 40 → is_semantic s = false) := by
  refine ⟨?_, by decide, ?_⟩
  · intro s
    unfold is_semantic is_random
    split
    case isTrue h =>
      simp only [Bool.not_true]
      constructor
      · intro hb; exact absurd hb (by simp)
      · rintro ⟨h2, h30, _⟩
        simp only [Bool.or_eq_true, decide_eq_true_eq] at h
        rcases h with (h | h) | h
        · subst h; simp at h2
        · omega
        · omega
    case isFalse h =>
      simp only [Bool.or_eq_true, decide_eq_true_eq, not_or] at h
      obtain ⟨⟨hne, h2⟩, h30⟩ := h
      simp only [Bool.not_not, Bool.or_eq_true]
      constructor
      · intro hb
        exact ⟨by omega, by omega, by tauto⟩
      · rintro ⟨_, _, hp⟩
        tauto
  · intro s h
    unfold is_semantic is_random
    rw [if_pos]
    · rfl
    · simp only [Bool.or_eq_true, decide_eq_true_eq]
      omega

/-- C3 (witness): the 40-character conjunct of
`c3_classifier_characterization` applied at a concrete 40-character string. -/
theorem c3_classifier_witness :
    is_semantic (String.mk (List.replicate 40 'a')) = false :=
  c3_classifier_characterization.2.2 (String.mk (List.replicate 40 'a')) (by decide)


/-- C4: `analyze_failure` decomposes the failed selector into the
`//tag[@attr="v"]`, `//tag[contains(@attr,"v")]` and `//tag[text()="v"]`
components, re-queries each in isolation and returns exactly the components
whose isolated query matches zero elements (the empty blacklist when every
component still resolves); on
`//div[@class="abc123"]//button[@id="submit-old"]` with the `abc123` div
still matching and `submit-old` gone, the result contains the button entry
and not the div entry. -/
theorem c4_analyzer_blacklist_exact :
    (∀ (q : String → Nat) (x : String) (e : BlacklistEntry),
      e ∈ analyze_failure (fun s => .ok (q s)) x ↔
        e ∈ parse_xpath_components x ∧ q (build_test_selector e) = 0) ∧
    (∀ (q : String → Nat) (x : String),
      (∀ e ∈ parse_xpath_components x, 0 < q (build_test_selector e)) →
      analyze_failure (fun s => .ok (q s)) x = []) ∧
    analyze_failure exampleQuery exampleXPath = [⟨"button", "id", "submit-old"⟩] ∧
    (⟨"div", "class", "abc123"⟩ : BlacklistEntry) ∉
      analyze_failure exampleQuery exampleXPath := by
  refine ⟨analyze_membership, ?_, by decide, by decide⟩
  intro q x hall
  rw [List.eq_nil_iff_forall_not_mem]
  intro e he
  obtain ⟨hmem, h0⟩ := (analyze_membership q x e).mp he
  have := hall e hmem
  omega

/-- C4 (witness): the membership characterization of
`c4_analyzer_blacklist_exact` applied at the claim's concrete selector and
page, and the empty-blacklist conjunct applied to a page where every
component resolves. -/
theorem c4_analyzer_witness :
    (⟨"button", "id", "submit-old"⟩ : BlacklistEntry) ∈
      analyze_failure (fun s => .ok (exampleQueryNat s)) exampleXPath ∧
    analyze_failure (fun s => .ok ((fun _ => 1) s)) exampleXPath = [] :=
  ⟨(c4_analyzer_blacklist_exact.1 exampleQueryNat exampleXPath _).mpr
      ⟨by decide, by decide⟩,
   c4_analyzer_blacklist_exact.2.1 (fun _ => 1) exampleXPath
      (fun e _ => Nat.one_pos)⟩

/-- C5 (counterexample): on the click-timeout path of the legacy picker
(element_picker.py), the returned result is a failure and the page is left
with the `element-picker-overlay` div still attached and the injected
listeners still registered — the claim's "all injected capture state is
removed after every pick() call" is false for this picker. -/
theorem c5_legacy_picker_residue_counterexample :
    (pick_element_legacy false initialPage).2 = false ∧
    (pick_element_legacy false initialPage).1.overlayPresent = true ∧
    (pick_element_legacy false initialPage).1.anonListeners = true ∧
    (pick_element_legacy true initialPage).1.anonListeners = true := by
  refine ⟨by decide, by decide, by decide, by decide⟩

/-- C5 (amended): the clean-slate picker (element_picker_clean.py) removes
all of its injected capture state on both the success and the
failure/timeout path, from any starting page state: the overlay is absent,
the stored listener triple is detached, and every picker window variable is
cleared.  Listeners a different picker injected anonymously are untouched
(the clean picker can only detach what `window.pickerListeners` refers
to). -/
theorem c5_clean_picker_cleanup (userClicks : Bool) (s : PageState) :
    (pick_element_clean userClicks s).1.overlayPresent = false ∧
    (pick_element_clean userClicks s).1.storedListeners = false ∧
    (pick_element_clean userClicks s).1.varPickerListeners = false ∧
    (pick_element_clean userClicks s).1.varPickerActive = false ∧
    (pick_element_clean userClicks s).1.varClickedElement = false ∧
    (pick_element_clean userClicks s).1.varLastHighlighted = false ∧
    (pick_element_clean userClicks s).1.anonListeners = s.anonListeners := by
  cases userClicks <;> simp [pick_element_clean]


/-- C6 (counterexample): `resolve_expression` in template_processing.py
does not fail on a missing column — it silently substitutes the empty
string (`row_data.get(name, '')`), and an unparseable expression is not
turned into an error or a caller default but into a literal
`{{UNKNOWN: ...}}` marker (there is no default parameter or error channel
at all), so the claim as stated is false for this resolver. -/
theorem c6_resolve_expression_silent_empty :
    resolve_expression tplColEmail [] = "" ∧
    resolve_expression "\x7b\x7bbogus\x7d\x7d" [] = "\x7b\x7bUNKNOWN: bogus\x7d\x7d" := by
  refine ⟨by decide, by decide⟩

/-- C6 (amended): for `TemplateEvaluator.evaluate_template`, resolving a
`{{col('<name>')}}` span whose column is absent fails with an error naming
the missing column unless a caller-supplied default is substituted instead,
and an unparseable expression inside braces yields the caller default or an
error naming the offending expression — never a silent empty-string
substitution; `resolve_expression` in template_processing.py instead
substitutes `''` for a missing column and a `{{UNKNOWN: ...}}` marker for an
unparseable expression (see the counterexample). -/
theorem c6_evaluator_errors_or_default :
    (∀ (name : String) (df : DataFrame) (ri : Nat),
      name ≠ "" →
      (∀ c ∈ name.data, isQuoteC c = false ∧ c ≠ rbraceC) →
      df.columns.contains name = false →
      evaluate_template df ri none ("\x7b\x7bcol(\x27" ++ name ++ "\x27)\x7d\x7d") =
        .error ("Template evaluation failed: col(\x27" ++ name ++ "\x27) - Column \x27"
          ++ name ++ "\x27 not found") ∧
      ∀ d : String,
        evaluate_template df ri (some d) ("\x7b\x7bcol(\x27" ++ name ++ "\x27)\x7d\x7d") =
          .ok d) ∧
    (∀ (inner : String) (df : DataFrame) (ri : Nat),
      inner ≠ "" →
      (∀ c ∈ inner.data, c ≠ rbraceC) →
      stripChars inner.data = inner.data →
      parseColFun inner.data = none →
      evaluate_template df ri none ("\x7b\x7b" ++ inner ++ "\x7d\x7d") =
        .error ("Template evaluation failed: " ++ inner ++ " - Unsupported expression: "
          ++ inner) ∧
      ∀ d : String,
        evaluate_template df ri (some d) ("\x7b\x7b" ++ inner ++ "\x7d\x7d") = .ok d) :=
  ⟨evaluate_template_missing_column, evaluate_template_unsupported_expr⟩

/-- C6 (witness): `c6_evaluator_errors_or_default` applied at the column
name `email`, a one-column data frame without that column, and the
unparseable expression `bogus`. -/
theorem c6_evaluator_witness :
    evaluate_template ⟨["a"], [["1"]]⟩ 0 none ("\x7b\x7bcol(\x27" ++ "email" ++ "\x27)\x7d\x7d") =
      .error ("Template evaluation failed: col(\x27" ++ "email" ++ "\x27) - Column \x27"
        ++ "email" ++ "\x27 not found") ∧
    evaluate_template ⟨["a"], [["1"]]⟩ 0 (some "dflt")
      ("\x7b\x7bcol(\x27" ++ "email" ++ "\x27)\x7d\x7d") = .ok "dflt" ∧
    evaluate_template ⟨["a"], [["1"]]⟩ 0 none ("\x7b\x7b" ++ "bogus" ++ "\x7d\x7d") =
      .error ("Template evaluation failed: " ++ "bogus" ++ " - Unsupported expression: "
        ++ "bogus") :=
  ⟨(c6_evaluator_errors_or_default.1 "email" ⟨["a"], [["1"]]⟩ 0 (by decide) (by decide)
      (by decide)).1,
   (c6_evaluator_errors_or_default.1 "email" ⟨["a"], [["1"]]⟩ 0 (by decide) (by decide)
      (by decide)).2 "dflt",
   (c6_evaluator_errors_or_default.2 "bogus" ⟨["a"], [["1"]]⟩ 0 (by decide) (by decide)
      (by decide) (by decide)).1⟩

/-- C7: `extract_required_columns` scans the `value`, `url` and `selector`
fields of every action in every section of the workflow and returns exactly
the column names referenced by literal name in quoted `col(...)` expressions
(the `is_template` pre-filter drops nothing, so the result equals the
spec-worded unfiltered scan); a workflow with the single action
`{value: "{{col('email')}}"}` yields `{"email"}`, and positional
`col(<digits>)` references contribute nothing. -/
theorem c7_extract_referenced_columns :
    (∀ cfg : TaskConfig, extract_required_columns cfg = referencedColumnsSpec cfg) ∧
    extract_required_columns
      ⟨none, none, some [⟨some tplColEmail, none, none⟩], none⟩ = {"email"} ∧
    (∀ ds : String, ds ≠ "" → (∀ c ∈ ds.data, isDigC c = true) →
      extract_required_columns ⟨none, none,
        some [⟨some ("\x7b\x7bcol(" ++ ds ++ ")\x7d\x7d"), none, none⟩], none⟩ = ∅) :=
  ⟨extract_eq_spec, by decide, extract_positional_empty⟩

/-- C7 (witness): the positional conjunct of `c7_extract_referenced_columns`
applied at the digit string `0`. -/
theorem c7_extract_witness :
    extract_required_columns ⟨none, none,
      some [⟨some ("\x7b\x7bcol(" ++ "0" ++ ")\x7d\x7d"), none, none⟩], none⟩ = ∅ :=
  c7_extract_referenced_columns.2.2 "0" (by decide) (by decide)


/-- C8 (counterexample): the registered handler for `wait_seconds`
(`handle_wait_seconds`) performs a single `asyncio.sleep` of the full
duration with no cancellation check: its sleep sequence for 10 seconds is
one chunk of 10, and a cancellation signal raised at t=1 is only observed
after the full 10 seconds — the claim's "every wait_seconds action sleeps in
small sub-increments with cancellation checked between increments" is false
for this handler. -/
theorem c8_wait_seconds_single_sleep_counterexample :
    handle_wait_seconds_chunks 10 = [10] ∧
    (handle_wait_seconds_chunks 10).length = 1 ∧
    sleepRun false 1 (handle_wait_seconds_chunks 10) 0 = 10 := by
  refine ⟨rfl, rfl, ?_⟩
  norm_num [sleepRun, handle_wait_seconds_chunks]

/-- C8 (amended): the chunked, cancellable wait is the thread executor's
`wait` action (`TaskExecutionThread._execute_wait`): it sleeps
`max(1, int(duration*10))` chunks of `duration/chunks` seconds with the stop
flag checked before each chunk, so for any positive duration and any signal
time `t ≥ 0` the wait stops within one chunk of the signal
(`elapsed ≤ t + chunk`) and never exceeds the requested duration; the
`wait_seconds` handler in action_handlers.py sleeps the full duration in one
uninterruptible chunk (see the counterexample). -/
theorem c8_execute_wait_cancellation (d t : ℚ) (hd : 0 < d) (ht : 0 ≤ t) :
    sleepRun true t (execute_wait_chunks d) 0 ≤ t + waitChunkDuration d ∧
    sleepRun true t (execute_wait_chunks d) 0 ≤ d ∧
    0 < waitChunkDuration d := by
  have hcd := waitChunkDuration_pos hd
  refine ⟨?_, ?_, hcd⟩
  · have h := sleepRun_le_signal t (waitChunkDuration d) (waitChunkCount d) 0
    have hmax : max (0:ℚ) (t + waitChunkDuration d) = t + waitChunkDuration d := by
      apply max_eq_right; linarith
    unfold execute_wait_chunks
    rw [← hmax]
    exact h
  · have hnn : ∀ c ∈ execute_wait_chunks d, (0:ℚ) ≤ c := by
      intro c hcm
      unfold execute_wait_chunks at hcm
      rw [List.eq_of_mem_replicate hcm]
      linarith
    have h := sleepRun_le_sum t (execute_wait_chunks d) 0 hnn
    rw [execute_wait_chunks_sum] at h
    linarith

/-- C8 (witness): `c8_execute_wait_cancellation` at the claim's example, a
10-second wait with the signal raised at t=1: the wait stops within one
0.1-second chunk of the signal and within the 10 seconds. -/
theorem c8_execute_wait_witness :
    sleepRun true 1 (execute_wait_chunks 10) 0 ≤ 1 + waitChunkDuration 10 ∧
    sleepRun true 1 (execute_wait_chunks 10) 0 ≤ 10 :=
  ⟨(c8_execute_wait_cancellation 10 1 (by decide) (by decide)).1,
   (c8_execute_wait_cancellation 10 1 (by decide) (by decide)).2.1⟩

/-- C9: for a workflow with at least one action and one configured browser
and an n-row dataset, `execute_workflow` attempts every action of every row
regardless of earlier failures (each row's record holds one entry per action
with the oracle's outcome), returns exactly n per-row records in row order,
and satisfies `total_rows = n` and `successful_rows + failed_rows = n`, a
row being successful exactly when all of its actions succeeded. -/
theorem c9_execute_workflow_row_accounting {α β : Type} (typeOf : α → Option String)
    (runAction : α → β → ActionRes) (actions : List α) (browsers : List String)
    (data : List β) (ha : actions ≠ []) (hb : browsers ≠ []) :
    (execute_workflow typeOf runAction actions browsers data).success = true ∧
    (execute_workflow typeOf runAction actions browsers data).total_rows = data.length ∧
    (execute_workflow typeOf runAction actions browsers data).successful_rows +
      (execute_workflow typeOf runAction actions browsers data).failed_rows =
        data.length ∧
    (execute_workflow typeOf runAction actions browsers data).results.length =
      data.length ∧
    (execute_workflow typeOf runAction actions browsers data).results.map
      RowOutcome.row_index = List.range data.length ∧
    (∀ (i : Nat) (row : β), data[i]? = some row →
      (execute_workflow typeOf runAction actions browsers data).results[i]? =
        some ⟨i,
          (actions.map fun a => mkActionRecord typeOf runAction a row).all
            (fun r => r.success),
          actions.map fun a => mkActionRecord typeOf runAction a row⟩) ∧
    (∀ ro ∈ (execute_workflow typeOf runAction actions browsers data).results,
      ro.actions.length = actions.length ∧
      (ro.success = true ↔ ∀ ar ∈ ro.actions, ar.success = true)) := by
  have hae : actions.isEmpty = false := by simpa [List.isEmpty_iff] using ha
  have hbe : browsers.isEmpty = false := by simpa [List.isEmpty_iff] using hb
  obtain ⟨h1, h2, h3, h4⟩ := processRows_parts typeOf runAction actions data 0
  unfold execute_workflow
  simp only [hae, hbe, Bool.false_eq_true, if_false]
  generalize hP : processRows typeOf runAction actions 0 data = P at h1 h2 h3 h4 ⊢
  obtain ⟨s, f, results⟩ := P
  simp only at h1 h2 h3 h4 ⊢
  have h4' : ∀ (i : Nat) (row : β), data[i]? = some row →
      results[i]? = some ⟨i,
        (actions.map fun a => mkActionRecord typeOf runAction a row).all
          (fun r => r.success),
        actions.map fun a => mkActionRecord typeOf runAction a row⟩ := by
    intro i row hrow
    simpa using h4 i row hrow
  refine ⟨trivial, trivial, h2, h1, by simpa [List.range_eq_range'] using h3, h4', ?_⟩
  intro ro hro
  obtain ⟨i, hi⟩ := List.mem_iff_getElem?.mp hro
  have hilt : i < results.length := by
    by_contra hcon
    push_neg at hcon
    rw [List.getElem?_eq_none hcon] at hi
    cases hi
  have hid : i < data.length := by omega
  have hrow : data[i]? = some data[i] := List.getElem?_eq_getElem hid
  have := h4' i data[i] hrow
  rw [hi] at this
  injection this with this
  subst this
  constructor
  · simp
  · simp only [List.all_eq_true]

/-- C9 (witness): `c9_execute_workflow_row_accounting` at a concrete
two-action workflow over a two-row dataset in which one action fails on the
first row: one row succeeds, one fails, and both rows' results are
reported. -/
theorem c9_execute_workflow_witness :
    (execute_workflow (fun a : String => some a)
        (fun a r => ⟨a = "ok" || r = 1, none⟩) ["ok", "bad"] ["m"] [0, 1]).successful_rows +
      (execute_workflow (fun a : String => some a)
        (fun a r => ⟨a = "ok" || r = 1, none⟩) ["ok", "bad"] ["m"] [0, 1]).failed_rows = 2 ∧
    (execute_workflow (fun a : String => some a)
        (fun a r => ⟨a = "ok" || r = 1, none⟩) ["ok", "bad"] ["m"] [0, 1]).results.length = 2 :=
  ⟨(c9_execute_workflow_row_accounting (fun a : String => some a)
      (fun a r => ⟨a = "ok" || r = 1, none⟩) ["ok", "bad"] ["m"] [0, 1]
      (by decide) (by decide)).2.2.1,
   (c9_execute_workflow_row_accounting (fun a : String => some a)
      (fun a r => ⟨a = "ok" || r = 1, none⟩) ["ok", "bad"] ["m"] [0, 1]
      (by decide) (by decide)).2.2.2.1⟩

/-- C10: `analyze_failure` is total over arbitrary selector strings and page
behaviours: its body never escapes with an error (the page query's
exceptions are caught inside the per-component test), a component whose
isolated query throws is treated as no longer existing and lands in the
blacklist, and a parsed component with an empty element, attribute or value
field is likewise treated as not existing. -/
theorem c10_analyze_failure_total :
    (∀ (q : String → Except String Nat) (x : String),
      analyze_failure_body q x = .ok (analyze_failure q x)) ∧
    (∀ (q : String → Except String Nat) (x : String) (c : BlacklistEntry) (err : String),
      c ∈ parse_xpath_components x → q (build_test_selector c) = .error err →
      c ∈ analyze_failure q x) ∧
    (∀ (q : String → Except String Nat) (c : BlacklistEntry),
      c.element = "" ∨ c.attr = "" ∨ c.value = "" →
      test_component_exists q c = false) :=
  ⟨fun _ _ => rfl, fun _ _ _ _ hm he => analyze_error_component hm he,
   test_empty_field_false⟩

/-- C10 (witness): `c10_analyze_failure_total` at a page whose every query
throws — the parsed component of `//div[@id="a"]` is blacklisted — and at a
component with an empty element field. -/
theorem c10_analyze_failure_witness :
    (⟨"div", "id", "a"⟩ : BlacklistEntry) ∈
      analyze_failure (fun _ => .error "boom") "//div[@id=\"a\"]" ∧
    test_component_exists (fun _ => .error "boom") ⟨"", "id", "a"⟩ = false :=
  ⟨c10_analyze_failure_total.2.1 (fun _ => .error "boom") "//div[@id=\"a\"]"
      ⟨"div", "id", "a"⟩ "boom" (by decide) rfl,
   c10_analyze_failure_total.2.2 (fun _ => .error "boom") ⟨"", "id", "a"⟩
      (Or.inl rfl)⟩

end WebAuto
